import Mathlib

/-!
Shallow embedding of the `rust-curl` command-line HTTP client
(`src/main.rs`): a single-shot pipeline that parses command-line
options, assembles one HTTP request, hands it to an external transport,
and then prints or saves the response body.

The embedding follows the source function by function:

* `clapParse` models the validation performed by the `clap` argument
  parser as configured in `main` (required positional `uri`;
  the `-X` method flag validated case-insensitively against the fixed
  `possible_values` list `["POST","GET","PUT","PATCH","HEAD","DELETE"]`.
  `clap` 3 checks a supplied value case-insensitively against the
  possible values but hands the user's original string back through
  `ArgMatches::value_of`, so the method string keeps the case the user
  typed).
* `parse_headers`, `parse_fields`, `parse_data` model the functions of
  the same names.  Rust `HashMap` insertion is modelled by `insertKV`
  (last value wins on a duplicate key).  A Rust `panic!` or a failed
  `unwrap()`/`expect()` is modelled as `Except.error`.
* `assemble` models the request-construction part of `main`: the two
  `unwrap()` calls on `uri` and `method`, the `match method` dispatch,
  the form/data/empty body selection for POST/PUT/PATCH, and the final
  `.headers(parse_headers(&matches))` call.  `reqwest`'s URL parsing
  inside `build()` is library-owned and out of the spec's scope, so the
  URL stays a plain string.
* `mainRun` models the whole of `main` as a trace of observable
  effects: the request given to the transport collaborator, the file
  write, and the body printed to standard output.  The transport (and
  `Response::text`) is an explicit functional parameter, matching the
  spec's external collaborator `send(request) -> response | error`.
* `highlight_status_code` and `print_res_status_line` model the
  verbose-mode status-line rendering.  `http::StatusCode` values lie in
  `100..=999` and display as `"NNN ReasonPhrase"`; the reason phrase is
  a library-owned lookup table, so it is a parameter.  The `colored`
  crate renders `green`/`yellow`/`red`/`red.bold` as the ANSI sequences
  written out in `green`, `yellow`, `red`, `redBold`.
-/

/-- Model of Rust `str::trim_end`: remove trailing whitespace. -/
def rtrim (s : String) : String :=
  String.mk ((s.data.reverse.dropWhile Char.isWhitespace).reverse)

/-- Model of Rust `str::trim_start`: remove leading whitespace. -/
def ltrim (s : String) : String :=
  String.mk (s.data.dropWhile Char.isWhitespace)

/-- Model of Rust `str::to_lowercase` (the inputs here are ASCII):
lower-case every character. -/
def strToLower (s : String) : String :=
  String.mk (s.data.map Char.toLower)

/-- Model of Rust `str::split` with a one-character separator, as used
by `parse_headers` (`split(':')`) and `parse_fields` (`split("=")`):
every separator occurrence splits, an empty input yields one empty
part, and leading/trailing separators yield empty parts. -/
def splitChar (sep : Char) : List Char → List (List Char)
  | [] => [[]]
  | c :: cs =>
    let r := splitChar sep cs
    if c = sep then [] :: r
    else
      match r with
      | [] => [[c]]
      | h :: t => (c :: h) :: t

/-- The parsed command-line options, mirroring the `clap` `ArgMatches`
of `main`: each repeatable flag is the list of values supplied (empty
when the flag is absent), `uri` is the raw positional argument (absent
only before `clap`'s required-argument check), and `method`/`out` are
the optional `-X`/`-o` values. -/
structure CliArgs where
  verbose : Bool
  method : Option String
  header : List String
  form : List String
  data : List String
  uri : Option String
  out : Option String
deriving Repr, DecidableEq

/-- Model of `ArgMatches::is_present` for a repeatable value flag:
present exactly when at least one value was supplied. -/
def isPresent (values : List String) : Bool :=
  !values.isEmpty

/-- Rust `HashMap::insert`: the last value supplied for a key wins.
The map is modelled as an association list without duplicate keys. -/
def insertKV (m : List (String × String)) (k v : String) : List (String × String) :=
  if m.any (fun p => p.1 == k) then
    m.map (fun p => if p.1 == k then (k, v) else p)
  else
    m ++ [(k, v)]

/-- The fixed `possible_values` list of the `-X` method flag. -/
def methodSet : List String :=
  ["POST", "GET", "PUT", "PATCH", "HEAD", "DELETE"]

/-- ASCII-case-insensitive string comparison, as used by `clap`'s
`ignore_case(true)` validation. -/
def eqIgnoreCase (a b : String) : Bool :=
  strToLower a == strToLower b

/-- `clap` acceptance test for a supplied `-X` value: case-insensitive
membership in `methodSet`. -/
def clapValidMethod (m : String) : Bool :=
  methodSet.any (fun p => eqIgnoreCase m p)

/-- Model of the `clap` validation in `main`'s `get_matches()`:
the positional `uri` is `required(true)`, and a supplied `-X` value
must match a `possible_values` entry case-insensitively.  On success
the matches are returned unchanged (in particular the method string
keeps the user's original case).  On failure `clap` prints a usage
error and exits before any further work. -/
def clapParse (args : CliArgs) : Except String CliArgs :=
  if args.uri.isNone then
    .error "error: the required argument uri was not provided"
  else
    match args.method with
    | some m =>
        if clapValidMethod m then .ok args
        else .error ("error: invalid value for --method: " ++ m)
    | none => .ok args

/-- Panic message of `Option::unwrap` on `None`. -/
def panicUnwrapNone : String :=
  "called Option::unwrap on a None value"

/-- Model of `parse_headers` from `src/main.rs`, including its inverted
presence guard: the source reads
`if matches.is_present("header") { return HeaderMap::new(); }`
(note: not negated, unlike the parallel `parse_fields`), so whenever
`-H` values are present the function returns an empty header map at
once and the per-token loop below the guard never runs.  The loop body
(split on all colons, reject unless exactly two parts, lower-case the
name, trim trailing whitespace from the value) is transcribed
faithfully even though it is unreachable.  The final
`try_into().expect("Invalid headers")` conversion to `HeaderMap` is
library-owned validation of an always-empty map and cannot fail. -/
def parse_headers (opts : CliArgs) : Except String (List (String × String)) :=
  if isPresent opts.header then
    .ok []
  else
    opts.header.foldlM
      (fun hm header =>
        match splitChar ':' header.data with
        | [k, v] => .ok (insertKV hm (strToLower (String.mk k)) (rtrim (String.mk v)))
        | _ => .error ("Unexpected header format " ++ header))
      []

/-- Model of `parse_fields` from `src/main.rs`: with no `-F` values an
empty map; otherwise each token is split on all `=`, rejected with a
panic unless it has exactly two parts, and inserted with the value's
leading whitespace trimmed. -/
def parse_fields (opts : CliArgs) : Except String (List (String × String)) :=
  if !isPresent opts.form then
    .ok []
  else
    opts.form.foldlM
      (fun hm field =>
        match splitChar '=' field.data with
        | [k, v] => .ok (insertKV hm (String.mk k) (ltrim (String.mk v)))
        | _ => .error ("Unexpected form format " ++ field))
      []

/-- Model of `parse_data` from `src/main.rs`: the `-d` fragments joined
with `&`, or the empty string when `-d` is absent. -/
def parse_data (opts : CliArgs) : String :=
  if !isPresent opts.data then ""
  else String.intercalate "&" opts.data

/-- The HTTP verbs reachable through `main`'s method dispatch. -/
inductive Method where
  | GET
  | POST
  | PUT
  | PATCH
  | HEAD
  | DELETE
deriving Repr, DecidableEq

/-- The request body as selected by `main`:
`empty` when no body-producing builder call is made, `raw` for
`RequestBuilder::body` (the literal string), `form` for
`RequestBuilder::form` (the library's `application/x-www-form-urlencoded`
encoding of the given key-value pairs). -/
inductive Body where
  | empty
  | raw (s : String)
  | form (fields : List (String × String))
deriving Repr, DecidableEq

/-- The outbound request handed to the transport collaborator. -/
structure Request where
  method : Method
  url : String
  headers : List (String × String)
  body : Body
deriving Repr, DecidableEq

/-- The inbound response as seen by `main` after the transport call and
`Response::text()`: protocol version (as printed by `{:?}`), status
code (an `http::StatusCode`, hence in `100..=999`), the library's
canonical reason phrase for it, headers, and the body text. -/
structure Response where
  version : String
  status : Nat
  reason : String
  headers : List (String × String)
  body : String
deriving Repr, DecidableEq

/-- Model of the request-construction part of `main`:
`matches.value_of("uri").unwrap()`, `matches.value_of("method").unwrap()`
(a panic when `-X` was not supplied, since no default value is
configured), the `match method` dispatch with its
`_ => panic!("Invalid method")` arm, the form/data/empty body choice
for POST/PUT/PATCH, and the uniform `.headers(parse_headers(&matches))`
attachment.  The `match` on `&str` literals is rendered as the
equivalent equality chain. -/
def assemble (opts : CliArgs) : Except String Request :=
  match opts.uri with
  | none => .error panicUnwrapNone
  | some uri =>
    match opts.method with
    | none => .error panicUnwrapNone
    | some method =>
      let mb : Except String (Method × Body) :=
        if method = "GET" then
          .ok (Method.GET, Body.empty)
        else if method = "POST" ∨ method = "PUT" ∨ method = "PATCH" then
          let b : Method :=
            if method = "PUT" then Method.PUT
            else if method = "PATCH" then Method.PATCH
            else Method.POST
          if isPresent opts.form then
            match parse_fields opts with
            | .ok fields => .ok (b, Body.form fields)
            | .error e => .error e
          else if isPresent opts.data then
            .ok (b, Body.raw (parse_data opts))
          else
            .ok (b, Body.empty)
        else if method = "HEAD" then
          .ok (Method.HEAD, Body.empty)
        else if method = "DELETE" then
          .ok (Method.DELETE, Body.empty)
        else
          .error "Invalid method"
      match mb with
      | .error e => .error e
      | .ok (m, body) =>
        match parse_headers opts with
        | .error e => .error e
        | .ok hs => .ok { method := m, url := uri, headers := hs, body := body }

/-- The `clap` validation followed by request assembly: everything
`main` does before the transport is invoked. -/
def checkAndAssemble (args : CliArgs) : Except String Request :=
  match clapParse args with
  | .error e => .error e
  | .ok opts => assemble opts

/-- The observable effects of one invocation: the request handed to the
transport's send, the file written via `save_in_file` (a
`File::create` that creates or truncates the path, followed by
`write_all` of the full body bytes), and the body printed to standard
output. -/
inductive Effect where
  | sent (r : Request)
  | savedFile (path : String) (contents : String)
  | printedBody (s : String)
deriving Repr, DecidableEq

/-- Model of the whole of `main`: validate and assemble (any failure
aborts the process with no effect), send the request through the
transport collaborator (its failure, or a `text()` failure, aborts
after the send), then either save the body text to the `-o` path or
print it to standard output with trailing whitespace trimmed.  The
result pairs the effect trace with the fatal error, if any.  Verbose
diagnostics (`print_req`/`print_res`) go to standard output only and
are modelled separately by `print_res_status_line`. -/
def mainRun (args : CliArgs) (transport : Request → Except String Response) :
    List Effect × Option String :=
  match checkAndAssemble args with
  | .error e => ([], some e)
  | .ok req =>
    match transport req with
    | .error e => ([Effect.sent req], some e)
    | .ok response =>
      match args.out with
      | some pathStr => ([Effect.sent req, Effect.savedFile pathStr response.body], none)
      | none => ([Effect.sent req, Effect.printedBody (rtrim response.body)], none)

/-- ANSI rendering of `colored`'s `.green()`. -/
def green (s : String) : String :=
  "\x1b[32m" ++ s ++ "\x1b[0m"

/-- ANSI rendering of `colored`'s `.yellow()`. -/
def yellow (s : String) : String :=
  "\x1b[33m" ++ s ++ "\x1b[0m"

/-- ANSI rendering of `colored`'s `.red()`. -/
def red (s : String) : String :=
  "\x1b[31m" ++ s ++ "\x1b[0m"

/-- ANSI rendering of `colored`'s `.red().bold()`. -/
def redBold (s : String) : String :=
  "\x1b[1;31m" ++ s ++ "\x1b[0m"

/-- The decimal digits of a status code; `http::StatusCode` values are
always in `100..=999`, so exactly three digits. -/
def statusDigits (code : Nat) : List Char :=
  [Nat.digitChar (code / 100), Nat.digitChar (code / 10 % 10), Nat.digitChar (code % 10)]

/-- Model of `StatusCode::to_string()` (`http::StatusCode`'s `Display`):
the decimal code, a space, and the library's canonical reason phrase
(a library-owned table, hence a parameter). -/
def statusToString (code : Nat) (reason : String) : String :=
  String.mk (statusDigits code) ++ " " ++ reason

/-- Rust `str::starts_with(char)`: the first character equals `c`. -/
def startsWithChar (s : String) (c : Char) : Bool :=
  s.data.head? == some c

/-- Model of `highlight_status_code` from `src/main.rs`: dispatch on
the first character of `code.to_string()` into the four colourings, or
the empty string for any other leading character. -/
def highlight_status_code (code : Nat) (reason : String) : String :=
  let s := statusToString code reason
  if startsWithChar s '2' then green s
  else if startsWithChar s '3' then yellow s
  else if startsWithChar s '4' then red s
  else if startsWithChar s '5' then redBold s
  else ""

/-- Model of the first line printed by `print_res`:
`println!("< {:?} {}", res.version(), highlight_status_code(&res.status()))`. -/
def print_res_status_line (res : Response) : String :=
  "< " ++ res.version ++ " " ++ highlight_status_code res.status res.reason

theorem parse_headers_always_empty (args : CliArgs) : parse_headers args = .ok [] := by
  cases h : args.header with
  | nil => simp [parse_headers, h, isPresent]; rfl
  | cons a l => simp [parse_headers, h, isPresent]

theorem clapParse_ok_eq (args a : CliArgs) (h : clapParse args = .ok a) : a = args := by
  unfold clapParse at h
  split at h
  · cases h
  · split at h
    · split at h
      · cases h; rfl
      · cases h
    · cases h; rfl

/-- Claim C1 (evaluation at the failing input): for the invocation
`-X POST -H Content-Type:application/json -d a=1 http://example/api`
the outbound request handed to the transport carries an empty header
map — the parsed header is not attached, because `parse_headers`
returns an empty map whenever `-H` values are present. -/
theorem c1_headers_not_attached :
    mainRun ⟨false, some "POST", ["Content-Type:application/json"], [], ["a=1"], some "http://example/api", none⟩
      (fun _ => .error "connection refused") =
    ([Effect.sent { method := Method.POST, url := "http://example/api", headers := [], body := Body.raw "a=1" }],
      some "connection refused") := by rfl

/-- Claim C2 (evaluation at the failing input): `-X get` passes the
argument parser's case-insensitive validation, but the assembler's
`match` only recognises the upper-case spellings, so the invocation
aborts with the `Invalid method` panic instead of selecting GET. -/
theorem c2_lowercase_method_panics :
    clapParse ⟨false, some "get", [], [], [], some "http://example/", none⟩ =
      .ok ⟨false, some "get", [], [], [], some "http://example/", none⟩ ∧
    checkAndAssemble ⟨false, some "get", [], [], [], some "http://example/", none⟩ =
      .error "Invalid method" := ⟨rfl, rfl⟩

/-- Claim C3 (counterexample): with `-X` absent and an otherwise valid
invocation, the program does not build and send a GET request; it
aborts on the `unwrap()` of the missing method value, producing no
effect at all, even though the transport would have answered. -/
theorem c3_counterexample_no_default_get :
    mainRun ⟨false, none, [], [], [], some "http://example/", none⟩
      (fun _ => .ok ⟨"HTTP/1.1", 200, "OK", [], "hello"⟩) =
    ([], some panicUnwrapNone) := rfl

/-- Claim C3 (amended): for every invocation in which the `-X` flag is
absent, the program aborts (panicking on the unwrap of the missing
method value, or earlier on a `clap` usage error) before any request
is built: the effect trace is empty and a fatal error is reported. -/
theorem c3_amended_missing_method_aborts (args : CliArgs)
    (t : Request → Except String Response) (h : args.method = none) :
    (mainRun args t).1 = [] ∧ (mainRun args t).2.isSome = true := by
  cases hu : args.uri with
  | none => simp [mainRun, checkAndAssemble, clapParse, hu]
  | some u => simp [mainRun, checkAndAssemble, clapParse, assemble, h, hu]

theorem c3_amended_witness :
    (⟨false, none, [], [], [], some "http://example/", none⟩ : CliArgs).method = none ∧
    ((mainRun ⟨false, none, [], [], [], some "http://example/", none⟩ (fun _ => .error "x")).1 = [] ∧
     (mainRun ⟨false, none, [], [], [], some "http://example/", none⟩ (fun _ => .error "x")).2.isSome = true) :=
  ⟨rfl, c3_amended_missing_method_aborts _ _ rfl⟩

/-- Claim C4 (evaluation at the failing inputs): a `-H` token with
zero colons (`X-Foo`) and one with two colons (`X-Foo:bar:baz`) are
both silently accepted — `parse_headers` reports success with an empty
map instead of the claimed fatal parse error; and even a well-formed
token (`X-Foo:bar`) yields no header at all instead of the claimed
lower-cased name/value pair.  The presence guard's early return makes
the per-token validation unreachable. -/
theorem c4_malformed_headers_silently_accepted :
    parse_headers ⟨false, some "GET", ["X-Foo"], [], [], some "http://example/", none⟩ = .ok [] ∧
    parse_headers ⟨false, some "GET", ["X-Foo:bar:baz"], [], [], some "http://example/", none⟩ = .ok [] ∧
    parse_headers ⟨false, some "GET", ["X-Foo:bar"], [], [], some "http://example/", none⟩ = .ok [] :=
  ⟨rfl, rfl, rfl⟩

/-- Claim C5: whenever the pre-transport pipeline (argument validation
followed by request assembly) fails — missing URI, method outside the
allowed set, malformed form token, or any other pre-send abort — the
effect trace of the whole run contains no transport send: no request
is ever handed to the transport collaborator. -/
theorem c5_usage_error_aborts_before_send (args : CliArgs)
    (t : Request → Except String Response) (e : String)
    (h : checkAndAssemble args = .error e) :
    ∀ r : Request, Effect.sent r ∉ (mainRun args t).1 := by
  intro r
  simp [mainRun, h]

theorem c5_witness :
    checkAndAssemble ⟨false, some "TRACE", [], [], [], some "http://example/", none⟩ =
      .error "error: invalid value for --method: TRACE" ∧
    Effect.sent { method := Method.GET, url := "u", headers := [], body := Body.empty } ∉
      (mainRun ⟨false, some "TRACE", [], [], [], some "http://example/", none⟩
        (fun _ => .error "x")).1 :=
  ⟨rfl, c5_usage_error_aborts_before_send
      ⟨false, some "TRACE", [], [], [], some "http://example/", none⟩
      (fun _ => .error "x")
      "error: invalid value for --method: TRACE" rfl
      { method := Method.GET, url := "u", headers := [], body := Body.empty }⟩

theorem assemble_form_eval (args : CliArgs) (u m : String)
    (hu : args.uri = some u) (hm : args.method = some m)
    (hmem : m = "POST" ∨ m = "PUT" ∨ m = "PATCH")
    (hfp : isPresent args.form = true) :
    assemble args =
      match parse_fields args with
      | .ok fields =>
          .ok { method := if m = "PUT" then Method.PUT
                          else if m = "PATCH" then Method.PATCH
                          else Method.POST,
                url := u, headers := [], body := Body.form fields }
      | .error e => .error e := by
  cases hpf : parse_fields args with
  | error e => rcases hmem with rfl | rfl | rfl <;> simp [assemble, hu, hm, hfp, hpf]
  | ok fields =>
    rcases hmem with rfl | rfl | rfl <;>
      simp [assemble, hu, hm, hfp, hpf, parse_headers_always_empty]

theorem assemble_nobody_eval (args : CliArgs) (u m : String)
    (hu : args.uri = some u) (hm : args.method = some m)
    (hmem : m = "GET" ∨ m = "HEAD" ∨ m = "DELETE") :
    assemble args =
      .ok { method := if m = "GET" then Method.GET
                      else if m = "HEAD" then Method.HEAD
                      else Method.DELETE,
            url := u, headers := [], body := Body.empty } := by
  rcases hmem with rfl | rfl | rfl <;>
    simp [assemble, hu, hm, parse_headers_always_empty]

/-- Claim C6: for POST, PUT, or PATCH with form fields present, the
request body is the `application/x-www-form-urlencoded` encoding of
the parsed form fields, and the `-d` data fragments have no effect:
the assembled request is identical whatever the data fragments are. -/
theorem c6_form_precedence_over_data (args : CliArgs) (m : String) (d : List String)
    (hm : args.method = some m) (hmem : m = "POST" ∨ m = "PUT" ∨ m = "PATCH")
    (hf : args.form ≠ []) :
    assemble { args with data := d } = assemble args ∧
    ∀ r : Request, assemble args = .ok r →
      ∃ fields, parse_fields args = .ok fields ∧ r.body = Body.form fields := by
  have hfp : isPresent args.form = true := by
    cases hcf : args.form with
    | nil => exact absurd hcf hf
    | cons a l => simp [isPresent, hcf]
  cases hu : args.uri with
  | none =>
    constructor
    · simp [assemble, hu]
    · intro r hr
      simp [assemble, hu] at hr
  | some u =>
    have h1 := assemble_form_eval args u m hu hm hmem hfp
    have h2 := assemble_form_eval { args with data := d } u m (by simp [hu]) (by simp [hm])
      hmem (by simp [hfp])
    have hpf : parse_fields { args with data := d } = parse_fields args := by
      simp [parse_fields]
    rw [hu] at h2 hpf
    constructor
    · rw [h1, h2, hpf]
    · intro r hr
      rw [h1] at hr
      cases hpfc : parse_fields args with
      | error e => rw [hpfc] at hr; cases hr
      | ok fields =>
        rw [hpfc] at hr
        simp only [] at hr
        refine ⟨fields, rfl, ?_⟩
        cases hr
        rfl

theorem c6_witness :
    (⟨false, some "POST", [], ["k=v"], ["x"], some "http://example/", none⟩ : CliArgs).form ≠ [] ∧
    (assemble { (⟨false, some "POST", [], ["k=v"], ["x"], some "http://example/", none⟩ : CliArgs) with
        data := ["y"] } =
      assemble ⟨false, some "POST", [], ["k=v"], ["x"], some "http://example/", none⟩ ∧
    ∀ r : Request,
      assemble ⟨false, some "POST", [], ["k=v"], ["x"], some "http://example/", none⟩ = .ok r →
      ∃ fields,
        parse_fields ⟨false, some "POST", [], ["k=v"], ["x"], some "http://example/", none⟩ =
          .ok fields ∧ r.body = Body.form fields) :=
  ⟨by simp, c6_form_precedence_over_data _ "POST" ["y"] rfl (Or.inl rfl) (by simp)⟩

/-- Claim C7: for GET, HEAD, or DELETE the assembled request carries no
body, and the `-F`/`-d` flags have no effect at all on the request:
the assembly result is identical whatever form tokens or data
fragments were supplied (and the argument parser accepts them). -/
theorem c7_get_head_delete_no_body (args : CliArgs) (m : String)
    (hm : args.method = some m) (hmem : m = "GET" ∨ m = "HEAD" ∨ m = "DELETE") :
    (∀ f d : List String, assemble { args with form := f, data := d } = assemble args) ∧
    ∀ r : Request, assemble args = .ok r → r.body = Body.empty := by
  cases hu : args.uri with
  | none =>
    constructor
    · intro f d; simp [assemble, hu]
    · intro r hr; simp [assemble, hu] at hr
  | some u =>
    have h1 := assemble_nobody_eval args u m hu hm hmem
    constructor
    · intro f d
      have h2 := assemble_nobody_eval { args with form := f, data := d } u m (by simp [hu])
        (by simp [hm]) hmem
      rw [hu] at h2
      rw [h1, h2]
    · intro r hr
      rw [h1] at hr
      cases hr
      rfl

theorem c7_witness :
    (⟨false, some "GET", [], ["k=v"], ["a=1"], some "http://example/", none⟩ : CliArgs).method =
      some "GET" ∧
    ((∀ f d : List String,
        assemble { (⟨false, some "GET", [], ["k=v"], ["a=1"], some "http://example/", none⟩ :
          CliArgs) with form := f, data := d } =
        assemble ⟨false, some "GET", [], ["k=v"], ["a=1"], some "http://example/", none⟩) ∧
    ∀ r : Request,
      assemble ⟨false, some "GET", [], ["k=v"], ["a=1"], some "http://example/", none⟩ = .ok r →
      r.body = Body.empty) :=
  ⟨rfl, c7_get_head_delete_no_body _ "GET" rfl (Or.inl rfl)⟩

/-- Claim C8: for POST, PUT, or PATCH with data fragments and no form
fields, assembly succeeds whatever the fragments' contents are, and
the request body is exactly the fragments joined with ampersands in
the order given. -/
theorem c8_data_fragments_joined (args : CliArgs) (m u : String)
    (hm : args.method = some m) (hmem : m = "POST" ∨ m = "PUT" ∨ m = "PATCH")
    (hu : args.uri = some u) (hform : args.form = []) (hdata : args.data ≠ []) :
    assemble args =
      .ok { method := if m = "PUT" then Method.PUT
                      else if m = "PATCH" then Method.PATCH
                      else Method.POST,
            url := u, headers := [],
            body := Body.raw (String.intercalate "&" args.data) } := by
  have hfp : isPresent args.form = false := by simp [isPresent, hform]
  have hdp : isPresent args.data = true := by
    cases hcd : args.data with
    | nil => exact absurd hcd hdata
    | cons a l => simp [isPresent, hcd]
  rcases hmem with rfl | rfl | rfl <;>
    simp [assemble, hu, hm, hfp, hdp, parse_data, parse_headers_always_empty]

theorem c8_witness :
    (⟨false, some "POST", [], [], ["a=1", "b=2"], some "http://example/", none⟩ : CliArgs).data ≠
      [] ∧
    assemble ⟨false, some "POST", [], [], ["a=1", "b=2"], some "http://example/", none⟩ =
      .ok { method := Method.POST, url := "http://example/", headers := [],
            body := Body.raw "a=1&b=2" } := by
  constructor
  · simp
  · have h := c8_data_fragments_joined
      ⟨false, some "POST", [], [], ["a=1", "b=2"], some "http://example/", none⟩
      "POST" "http://example/" rfl (Or.inl rfl) rfl rfl (by simp)
    simpa using h

/-- Claim C9: once a response body text has been received, the run with
an output path writes the full body bytes to that path and prints
nothing of the body to standard output, while the run without an
output path prints the body to standard output with trailing
whitespace trimmed (and writes no file): the effect traces are exactly
the send followed by the one chosen output action. -/
theorem c9_body_saved_or_printed (args : CliArgs) (t : Request → Except String Response)
    (req : Request) (res : Response)
    (h1 : checkAndAssemble args = .ok req) (h2 : t req = .ok res) :
    (∀ p, args.out = some p →
        mainRun args t = ([Effect.sent req, Effect.savedFile p res.body], none)) ∧
    (args.out = none →
        mainRun args t = ([Effect.sent req, Effect.printedBody (rtrim res.body)], none)) := by
  constructor
  · intro p hp
    simp [mainRun, h1, h2, hp]
  · intro hp
    simp [mainRun, h1, h2, hp]

theorem c9_witness :
    checkAndAssemble ⟨false, some "GET", [], [], [], some "http://example/", some "/tmp/out.txt"⟩ =
      .ok { method := Method.GET, url := "http://example/", headers := [], body := Body.empty } ∧
    ((∀ p, (⟨false, some "GET", [], [], [], some "http://example/", some "/tmp/out.txt"⟩ :
          CliArgs).out = some p →
        mainRun ⟨false, some "GET", [], [], [], some "http://example/", some "/tmp/out.txt"⟩
          (fun _ => .ok ⟨"HTTP/1.1", 200, "OK", [], "body text \n"⟩) =
        ([Effect.sent { method := Method.GET, url := "http://example/", headers := [], body := Body.empty },
          Effect.savedFile p "body text \n"], none)) ∧
    ((⟨false, some "GET", [], [], [], some "http://example/", some "/tmp/out.txt"⟩ :
        CliArgs).out = none →
      mainRun ⟨false, some "GET", [], [], [], some "http://example/", some "/tmp/out.txt"⟩
        (fun _ => .ok ⟨"HTTP/1.1", 200, "OK", [], "body text \n"⟩) =
      ([Effect.sent { method := Method.GET, url := "http://example/", headers := [], body := Body.empty },
        Effect.printedBody (rtrim "body text \n")], none))) :=
  ⟨rfl, c9_body_saved_or_printed
      ⟨false, some "GET", [], [], [], some "http://example/", some "/tmp/out.txt"⟩
      (fun _ => .ok ⟨"HTTP/1.1", 200, "OK", [], "body text \n"⟩)
      { method := Method.GET, url := "http://example/", headers := [], body := Body.empty }
      ⟨"HTTP/1.1", 200, "OK", [], "body text \n"⟩ rfl rfl⟩

theorem string_ne_of_third (a b : String) (c1 c2 : Char)
    (h1 : a.data.get? 3 = some c1) (h2 : b.data.get? 3 = some c2) (hne : c1 ≠ c2) :
    a ≠ b := by
  intro h
  subst h
  rw [h1] at h2
  exact hne (Option.some.inj h2)

theorem string_ne_empty_of_first (a : String) (c : Char) (h : a.data.get? 0 = some c) :
    a ≠ "" := by
  intro he
  rw [he] at h
  exact Option.noConfusion h

/-- Claim C10: for a status code (always in `100..=999`) whose decimal
representation does not start with 2, 3, 4 or 5 — that is, whose
hundreds digit is not 2, 3, 4 or 5, e.g. any 1xx informational code —
`highlight_status_code` returns the empty string, so the verbose
response line is the protocol version followed by no status text; for
hundreds digits 2, 3, 4 and 5 it returns the green, yellow, red and
bold-red renderings of the code's display string, which are pairwise
distinct and non-empty for every rendered string. -/
theorem c10_status_classification (n : Nat) (reason : String)
    (hlo : 100 ≤ n) (hhi : n ≤ 999) :
    (¬ (n / 100 = 2 ∨ n / 100 = 3 ∨ n / 100 = 4 ∨ n / 100 = 5) →
        highlight_status_code n reason = "" ∧
        ∀ v hs b, print_res_status_line ⟨v, n, reason, hs, b⟩ = "< " ++ v ++ " ") ∧
    (n / 100 = 2 → highlight_status_code n reason = green (statusToString n reason)) ∧
    (n / 100 = 3 → highlight_status_code n reason = yellow (statusToString n reason)) ∧
    (n / 100 = 4 → highlight_status_code n reason = red (statusToString n reason)) ∧
    (n / 100 = 5 → highlight_status_code n reason = redBold (statusToString n reason)) ∧
    (∀ s : String,
      green s ≠ "" ∧ yellow s ≠ "" ∧ red s ≠ "" ∧ redBold s ≠ "" ∧
      green s ≠ yellow s ∧ green s ≠ red s ∧ green s ≠ redBold s ∧
      yellow s ≠ red s ∧ yellow s ≠ redBold s ∧ red s ≠ redBold s) := by
  have key : ∀ c : Char, startsWithChar (statusToString n reason) c =
      (Nat.digitChar (n / 100) == c) := fun c => rfl
  have hk1 : 1 ≤ n / 100 := by omega
  have hk9 : n / 100 ≤ 9 := by omega
  have c2 : (Nat.digitChar (n / 100) == '2') = decide (n / 100 = 2) := by
    set k := n / 100 with hk
    interval_cases k <;> rfl
  have c3 : (Nat.digitChar (n / 100) == '3') = decide (n / 100 = 3) := by
    set k := n / 100 with hk
    interval_cases k <;> rfl
  have c4 : (Nat.digitChar (n / 100) == '4') = decide (n / 100 = 4) := by
    set k := n / 100 with hk
    interval_cases k <;> rfl
  have c5 : (Nat.digitChar (n / 100) == '5') = decide (n / 100 = 5) := by
    set k := n / 100 with hk
    interval_cases k <;> rfl
  refine ⟨?_, ?_, ?_, ?_, ?_, ?_⟩
  · intro hd
    push_neg at hd
    obtain ⟨hd2, hd3, hd4, hd5⟩ := hd
    have hh : highlight_status_code n reason = "" := by
      simp [highlight_status_code, key, c2, c3, c4, c5, hd2, hd3, hd4, hd5]
    exact ⟨hh, fun v hs b => by simp [print_res_status_line, hh]⟩
  · intro hd
    simp only [highlight_status_code, key, hd]
    rw [if_pos (by decide)]
  · intro hd
    simp only [highlight_status_code, key, hd]
    rw [if_neg (by decide), if_pos (by decide)]
  · intro hd
    simp only [highlight_status_code, key, hd]
    rw [if_neg (by decide), if_neg (by decide), if_pos (by decide)]
  · intro hd
    simp only [highlight_status_code, key, hd]
    rw [if_neg (by decide), if_neg (by decide), if_neg (by decide), if_pos (by decide)]
  · intro s
    exact ⟨string_ne_empty_of_first _ '\x1b' rfl,
      string_ne_empty_of_first _ '\x1b' rfl,
      string_ne_empty_of_first _ '\x1b' rfl,
      string_ne_empty_of_first _ '\x1b' rfl,
      string_ne_of_third _ _ '2' '3' rfl rfl (by decide),
      string_ne_of_third _ _ '2' '1' rfl rfl (by decide),
      string_ne_of_third _ _ '2' ';' rfl rfl (by decide),
      string_ne_of_third _ _ '3' '1' rfl rfl (by decide),
      string_ne_of_third _ _ '3' ';' rfl rfl (by decide),
      string_ne_of_third _ _ '1' ';' rfl rfl (by decide)⟩

theorem c10_witness :
    100 ≤ 404 ∧ 404 ≤ 999 ∧
    ((¬ (404 / 100 = 2 ∨ 404 / 100 = 3 ∨ 404 / 100 = 4 ∨ 404 / 100 = 5) →
        highlight_status_code 404 "Not Found" = "" ∧
        ∀ v hs b, print_res_status_line ⟨v, 404, "Not Found", hs, b⟩ = "< " ++ v ++ " ") ∧
    (404 / 100 = 2 → highlight_status_code 404 "Not Found" = green (statusToString 404 "Not Found")) ∧
    (404 / 100 = 3 → highlight_status_code 404 "Not Found" = yellow (statusToString 404 "Not Found")) ∧
    (404 / 100 = 4 → highlight_status_code 404 "Not Found" = red (statusToString 404 "Not Found")) ∧
    (404 / 100 = 5 → highlight_status_code 404 "Not Found" = redBold (statusToString 404 "Not Found")) ∧
    (∀ s : String,
      green s ≠ "" ∧ yellow s ≠ "" ∧ red s ≠ "" ∧ redBold s ≠ "" ∧
      green s ≠ yellow s ∧ green s ≠ red s ∧ green s ≠ redBold s ∧
      yellow s ≠ red s ∧ yellow s ≠ redBold s ∧ red s ≠ redBold s)) :=
  ⟨by decide, by decide, c10_status_classification 404 "Not Found" (by decide) (by decide)⟩
